import Mathlib

/-!
Verification of the budget-period and expense-aggregation engine of the
`ai-budget-app/ai-budget-backend` repository.

Time is modelled as in JavaScript: an instant is an integer number of
milliseconds since the Unix epoch, and `new Date(y, m, d, h, mi, s, ms)`
(month `m` 0-based, with native rollover/normalisation of out-of-range
fields) is modelled by `mkDate`.  Monetary amounts are modelled as
rationals.
-/

namespace AiBudget

/-- Gregorian leap-year test. -/
def isLeap (y : Int) : Bool :=
  (y % 4 == 0 && y % 100 != 0) || y % 400 == 0

/-- Number of days of month `m` (1-based, 1..12) of year `y`. -/
def daysInMonth (y m : Int) : Int :=
  if m = 2 then (if isLeap y then 29 else 28)
  else if m = 4 ∨ m = 6 ∨ m = 9 ∨ m = 11 then 30
  else 31

/-- Day number (days since 1970-01-01) of the civil date `(y, m, d)`,
month `m` 1-based in 1..12; linear in `d`, so out-of-range `d` rolls over
exactly as JS date construction does. -/
def daysFromCivil (y m d : Int) : Int :=
  let y2 := if m ≤ 2 then y - 1 else y
  let era := y2 / 400
  let yoe := y2 - era * 400
  let mp := (m + 9) % 12
  let doy := (153 * mp + 2) / 5 + d - 1
  let doe := yoe * 365 + yoe / 4 - yoe / 100 + doy
  era * 146097 + doe - 719468

/-- JS `MakeDay(y, m, d)`: month `m` is 0-based and may be any integer;
the year/month pair is normalised first, then day `d` offsets from the
first of the month. -/
def makeDay (y m d : Int) : Int :=
  let ym := y * 12 + m
  daysFromCivil (ym / 12) (ym % 12 + 1) 1 + (d - 1)

/-- JS `new Date(y, m, d, h, mi, s, ms).getTime()` (fields free-ranging,
native rollover semantics). -/
def mkDate (y m d h mi s ms : Int) : Int :=
  makeDay y m d * 86400000 + h * 3600000 + mi * 60000 + s * 1000 + ms

/-- A reference instant, decomposed the way JS `Date` accessors see it:
`getFullYear() = year`, `getMonth() = month` (0-based),
`getDate() = day` (1-based), plus the milliseconds elapsed since local
midnight. -/
structure RefTime where
  year : Int
  month : Int
  day : Int
  msOfDay : Int
deriving DecidableEq, Repr

/-- The decomposition is a genuine calendar date-time. -/
def RefTime.Valid (t : RefTime) : Prop :=
  0 ≤ t.month ∧ t.month ≤ 11 ∧ 1 ≤ t.day ∧ t.day ≤ daysInMonth t.year (t.month + 1) ∧
    0 ≤ t.msOfDay ∧ t.msOfDay ≤ 86399999

instance (t : RefTime) : Decidable t.Valid := by
  unfold RefTime.Valid; infer_instance

/-- The instant (epoch milliseconds) denoted by a decomposed reference time. -/
def RefTime.instant (t : RefTime) : Int :=
  mkDate t.year t.month t.day 0 0 0 0 + t.msOfDay

/-- A budgeting period: inclusive start and end instants (epoch ms). -/
structure Period where
  periodStart : Int
  periodEnd : Int
deriving DecidableEq, Repr

/-- `BudgetSettingsSchema.methods.getCurrentPeriod` (src/modules/budget/
BudgetSchema.js, lines 80-98): `startDay` is `monthStart.getDate()`, `now`
the ambient clock, made explicit here. -/
def getCurrentPeriod (startDay : Int) (now : RefTime) : Period :=
  if now.day ≥ startDay then
    { periodStart := mkDate now.year now.month startDay 0 0 0 0
      periodEnd := mkDate now.year (now.month + 1) (startDay - 1) 23 59 59 999 }
  else
    { periodStart := mkDate now.year (now.month - 1) startDay 0 0 0 0
      periodEnd := mkDate now.year now.month (startDay - 1) 23 59 59 999 }

/-- Number of days of the (normalised) month reached by 0-based month
index `m` of year `y`. -/
def monthLen (y m : Int) : Int :=
  daysInMonth ((y * 12 + m) / 12) ((y * 12 + m) % 12 + 1)

/-- Year/month rolling exactly as the spec words it: "month -1 from January
→ December of previous year; month +1 from December → January of next
year".  Month is 0-based and at most one step out of range. -/
def rollYM (y m : Int) : Int × Int :=
  if m < 0 then (y - 1, m + 12)
  else if m > 11 then (y + 1, m - 12)
  else (y, m)

/-- The instant `(y, m, d)` at `h:mi:s.ms` as the spec describes it: roll
the year boundary explicitly, then take day `d` of the rolled month (day
0, produced by `anchorDay - 1` when `anchorDay = 1`, denotes the day
before the first of the month, per native date-rollover semantics). -/
def specInstant (y m d h mi s ms : Int) : Int :=
  let p := rollYM y m
  (daysFromCivil p.1 (p.2 + 1) 1 + (d - 1)) * 86400000 +
    h * 3600000 + mi * 60000 + s * 1000 + ms

/-! ## Expense records and aggregation -/

/-- An expense record as the engine reads it (amounts modelled as
rationals, dates as epoch milliseconds). -/
structure Expense where
  amount : ℚ
  date : Int
  category : String
deriving DecidableEq, Repr

/-- `expense.category || 'Other'` — the empty string is the only falsy
string value here. -/
def catOf (e : Expense) : String :=
  if e.category = "" then "Other" else e.category

/-- The fields of a `BudgetSettings` record the summary/history handlers
read (`anchorDay` is `monthStart.getDate()`). -/
structure BudgetSettings where
  monthlyBudget : ℚ
  notificationsEnabled : Bool
  thresholdPercent : ℚ
  anchorDay : Int
deriving DecidableEq, Repr

/-- The Mongo filter `date: { $gte: periodStart, $lte: periodEnd }`. -/
def inPeriod (p : Period) (e : Expense) : Bool :=
  p.periodStart ≤ e.date && e.date ≤ p.periodEnd

/-- `expenses.reduce((sum, expense) => sum + expense.amount, 0)`. -/
def totalSpent (es : List Expense) : ℚ :=
  es.foldl (fun sum e => sum + e.amount) 0

/-- One step of the `spentByCategory` reduce:
`acc[category] = (acc[category] || 0) + expense.amount`, with the JS
object modelled as an insertion-ordered association list. -/
def upsert (acc : List (String × ℚ)) (c : String) (a : ℚ) : List (String × ℚ) :=
  match acc with
  | [] => [(c, a)]
  | (k, v) :: t => if k = c then (k, v + a) :: t else (k, v) :: upsert t c a

/-- `expenses.reduce((acc, expense) => { ... }, {})` from
`getBudgetSummary` (BudgetController.js lines 122-126). -/
def spentByCategory (es : List Expense) : List (String × ℚ) :=
  es.foldl (fun acc e => upsert acc (catOf e) e.amount) []

/-- JS `Math.round` (round half toward +∞). -/
def jsRound (q : ℚ) : Int := ⌊q + 1/2⌋

/-- `Math.round(x * 100) / 100`. -/
def round2 (q : ℚ) : ℚ := (jsRound (q * 100) : ℚ) / 100

/-- `x.toFixed(1)` as a rational (ECMAScript picks the larger candidate
on ties, i.e. rounds half toward +∞ at one decimal). -/
def toFixed1 (q : ℚ) : ℚ := (jsRound (q * 10) : ℚ) / 10

/-- The `$group` accumulators of `ExpenseSchema.statics.getStatistics`. -/
structure Stats where
  totalAmount : ℚ
  avgAmount : ℚ
  minAmount : ℚ
  maxAmount : ℚ
  count : Nat
deriving DecidableEq, Repr

/-- Mongo `$min` over a group of amounts (`none` for the empty group). -/
def foldMin (l : List ℚ) : Option ℚ :=
  l.foldr (fun x o => some (min (o.getD x) x)) none

/-- Mongo `$max` over a group of amounts (`none` for the empty group). -/
def foldMax (l : List ℚ) : Option ℚ :=
  l.foldr (fun x o => some (max (o.getD x) x)) none

/-- `ExpenseSchema.statics.getStatistics` (ExpenseSchema.js lines
114-144): the `$group` stage over the matched amounts; an empty match
produces no group row and the explicit zero fallback object is
returned. -/
def getStatistics (amounts : List ℚ) : Stats :=
  if amounts.length = 0 then ⟨0, 0, 0, 0, 0⟩
  else
    { totalAmount := amounts.sum
      avgAmount := amounts.sum / (amounts.length : ℚ)
      minAmount := (foldMin amounts).getD 0
      maxAmount := (foldMax amounts).getD 0
      count := amounts.length }

/-- The summary payload built by `getBudgetSummary` (the notification
message is modelled by the 1-decimal-rounded percentage it embeds). -/
structure Summary where
  monthlyBudget : ℚ
  totalSpent : ℚ
  remaining : ℚ
  percentUsed : ℚ
  period : Period
  spentByCategory : List (String × ℚ)
  expensesCount : Nat
  shouldNotify : Bool
  notificationMessage : Option ℚ
deriving DecidableEq, Repr

/-- `getBudgetSummary` (BudgetController.js lines 96-164), for a user
whose settings exist; `expenses0` is the user's full expense collection,
the period filter being the Mongo query of lines 110-116. -/
def getBudgetSummary (s : BudgetSettings) (now : RefTime) (expenses0 : List Expense) :
    Summary :=
  let period := getCurrentPeriod s.anchorDay now
  let expenses := expenses0.filter (fun e => inPeriod period e)
  let total := totalSpent expenses
  let remaining := s.monthlyBudget - total
  let percentUsed := if s.monthlyBudget > 0 then total / s.monthlyBudget * 100 else 0
  let shouldNotify := s.notificationsEnabled && decide (percentUsed ≥ s.thresholdPercent)
  { monthlyBudget := s.monthlyBudget
    totalSpent := total
    remaining := remaining
    percentUsed := round2 percentUsed
    period := period
    spentByCategory := spentByCategory expenses
    expensesCount := expenses.length
    shouldNotify := shouldNotify
    notificationMessage := if shouldNotify then some (toFixed1 percentUsed) else none }

/-! ## Budget history -/

/-- The period the history loop builds for index `i`
(BudgetController.js lines 252-253): note there is no comparison of the
reference day with `startDay` here. -/
def historyPeriod (startDay : Int) (now : RefTime) (i : Int) : Period :=
  { periodStart := mkDate now.year (now.month - i) startDay 0 0 0 0
    periodEnd := mkDate now.year (now.month - i + 1) (startDay - 1) 23 59 59 999 }

/-- One entry pushed by the history loop (lines 255-276). -/
structure HistoryEntry where
  period : Period
  monthlyBudget : ℚ
  totalSpent : ℚ
  remaining : ℚ
  expensesCount : Nat
deriving DecidableEq, Repr

/-- The entry for index `i`: expenses are the user's records filtered to
the period by the Mongo date query. -/
def historyEntry (s : BudgetSettings) (now : RefTime) (expenses0 : List Expense)
    (i : Int) : HistoryEntry :=
  let p := historyPeriod s.anchorDay now i
  let expenses := expenses0.filter (fun e => inPeriod p e)
  let total := totalSpent expenses
  { period := p
    monthlyBudget := s.monthlyBudget
    totalSpent := total
    remaining := s.monthlyBudget - total
    expensesCount := expenses.length }

/-- `getBudgetHistory` (BudgetController.js lines 234-290): `months` is
`Number(req.query.months)` (default 6); the only rejected condition is
missing settings — the loop `for (i = 0; i < months; i++)` simply runs
zero times for non-positive `months`. -/
def getBudgetHistory (settings : Option BudgetSettings) (months : Int) (now : RefTime)
    (expenses : List Expense) : Except String (List HistoryEntry) :=
  match settings with
  | none => Except.error "Настройки бюджета не найдены"
  | some s =>
    Except.ok ((List.range months.toNat).map fun i : Nat => historyEntry s now expenses (i : Int))

/-! ## Concrete fixtures used by witnesses and counterexamples -/

/-- Settings: budget 1000, notifications on at 80%, anchor day 15. -/
def sampleSettings : BudgetSettings := ⟨1000, true, 80, 15⟩

/-- Reference instant 2024-03-20T00:00:00.000 (`refDay 20 ≥ anchor 15`). -/
def refMar20 : RefTime := ⟨2024, 2, 20, 0⟩

/-- Reference instant 2024-03-10T00:00:00.000 (`refDay 10 < anchor 15`). -/
def refMar10 : RefTime := ⟨2024, 2, 10, 0⟩

/-- An 850.00 expense dated 2024-03-20, inside the current period of
`refMar20`. -/
def expense850 : Expense := ⟨850, mkDate 2024 2 20 0 0 0 0, "Food"⟩

/-- A 799.96 expense dated 2024-03-20: exactly 79.996% of budget 1000. -/
def expense79996 : Expense := ⟨79996 / 100, mkDate 2024 2 20 0 0 0 0, "Food"⟩

/-! ## Order-independence of aggregation -/

/-- The total amount bucketed under category `c`. -/
def catSum (es : List Expense) (c : String) : ℚ :=
  ((es.filter fun e => catOf e == c).map (·.amount)).sum

theorem monthLen_bounds (y m : Int) : 28 ≤ monthLen y m ∧ monthLen y m ≤ 31 := by
  unfold monthLen daysInMonth
  split_ifs <;> omega

theorem makeDay_day (y m d : Int) : makeDay y m d = makeDay y m 1 + (d - 1) := by
  unfold makeDay
  ring

theorem daysFromCivil_succ (y m : Int) (h1 : 1 ≤ m) (h2 : m ≤ 11) :
    daysFromCivil y (m + 1) 1 = daysFromCivil y m 1 + daysInMonth y m := by
  have hL : isLeap y = true ↔ ((y % 4 = 0 ∧ y % 100 ≠ 0) ∨ y % 400 = 0) := by
    simp [isLeap]
  interval_cases m <;>
    simp only [daysFromCivil, daysInMonth] <;>
    (try norm_num) <;>
    first
      | omega
      | (by_cases hLy : isLeap y = true <;>
          simp only [hLy] <;>
          (try norm_num) <;>
          rw [hL] at hLy <;>
          omega)

theorem daysFromCivil_dec (y : Int) :
    daysFromCivil (y + 1) 1 1 = daysFromCivil y 12 1 + 31 := by
  simp only [daysFromCivil]
  omega

theorem makeDay_succ (y m : Int) :
    makeDay y (m + 1) 1 = makeDay y m 1 + monthLen y m := by
  simp only [makeDay, monthLen]
  have h12 : y * 12 + (m + 1) = (y * 12 + m) + 1 := by ring
  rw [h12]
  by_cases hr : (y * 12 + m) % 12 = 11
  · have e1 : ((y * 12 + m) + 1) / 12 = (y * 12 + m) / 12 + 1 := by omega
    have e2 : ((y * 12 + m) + 1) % 12 = 0 := by omega
    rw [e1, e2, hr]
    have hdec := daysFromCivil_dec ((y * 12 + m) / 12)
    have hdim : daysInMonth ((y * 12 + m) / 12) (11 + 1) = 31 := by
      unfold daysInMonth
      split_ifs <;> omega
    rw [hdim]
    norm_num at hdec ⊢
    linarith [hdec]
  · have hrb : 0 ≤ (y * 12 + m) % 12 ∧ (y * 12 + m) % 12 ≤ 10 := by omega
    have e1 : ((y * 12 + m) + 1) / 12 = (y * 12 + m) / 12 := by omega
    have e2 : ((y * 12 + m) + 1) % 12 = (y * 12 + m) % 12 + 1 := by omega
    rw [e1, e2]
    have hsucc := daysFromCivil_succ ((y * 12 + m) / 12) ((y * 12 + m) % 12 + 1)
      (by omega) (by omega)
    linarith [hsucc]

theorem specInstant_eq_mkDate (y m d h mi s ms : Int) (h1 : -1 ≤ m) (h2 : m ≤ 12) :
    specInstant y m d h mi s ms = mkDate y m d h mi s ms := by
  simp only [specInstant, mkDate, makeDay, rollYM]
  by_cases hm0 : m < 0
  · have e1 : (y * 12 + m) / 12 = y - 1 := by omega
    have e2 : (y * 12 + m) % 12 = m + 12 := by omega
    rw [if_pos hm0, e1, e2]
  · by_cases hm1 : m > 11
    · have e1 : (y * 12 + m) / 12 = y + 1 := by omega
      have e2 : (y * 12 + m) % 12 = m - 12 := by omega
      rw [if_neg hm0, if_pos hm1, e1, e2]
    · have e1 : (y * 12 + m) / 12 = y := by omega
      have e2 : (y * 12 + m) % 12 = m := by omega
      rw [if_neg hm0, if_neg hm1, e1, e2]

/-- C1: for every `anchorDay` in 1..31 and reference instant, if the
reference day-of-month is at least `anchorDay`, `getCurrentPeriod` returns
start `(year, month, anchorDay)` at 00:00:00.000 and end
`(year, month+1, anchorDay-1)` at 23:59:59.999; otherwise it returns
start `(year, month-1, anchorDay)` at 00:00:00.000 and end
`(year, month, anchorDay-1)` at 23:59:59.999, with month arithmetic
rolling year boundaries correctly (`specInstant` rolls the year boundary
explicitly); and concretely, for `anchorDay = 15` and reference
2024-03-10 the period is
[2024-02-15T00:00:00.000, 2024-03-14T23:59:59.999]. -/
theorem getCurrentPeriod_matches_spec (a : Int) (t : RefTime) (hv : t.Valid)
    (ha1 : 1 ≤ a) (ha2 : a ≤ 31) :
    ((t.day ≥ a →
        getCurrentPeriod a t =
          { periodStart := specInstant t.year t.month a 0 0 0 0
            periodEnd := specInstant t.year (t.month + 1) (a - 1) 23 59 59 999 }) ∧
      (t.day < a →
        getCurrentPeriod a t =
          { periodStart := specInstant t.year (t.month - 1) a 0 0 0 0
            periodEnd := specInstant t.year t.month (a - 1) 23 59 59 999 })) ∧
    getCurrentPeriod 15 ⟨2024, 2, 10, 0⟩ =
      { periodStart := 1707955200000, periodEnd := 1710460799999 } := by
  obtain ⟨hm0, hm1, _⟩ := hv
  refine ⟨⟨fun h => ?_, fun h => ?_⟩, by decide⟩
  · rw [getCurrentPeriod, if_pos h,
      specInstant_eq_mkDate _ _ _ _ _ _ _ (by omega) (by omega),
      specInstant_eq_mkDate _ _ _ _ _ _ _ (by omega) (by omega)]
  · rw [getCurrentPeriod, if_neg (by omega),
      specInstant_eq_mkDate _ _ _ _ _ _ _ (by omega) (by omega),
      specInstant_eq_mkDate _ _ _ _ _ _ _ (by omega) (by omega)]

theorem getCurrentPeriod_matches_spec_witness :
    (⟨2024, 2, 10, 0⟩ : RefTime).Valid ∧ (1 : Int) ≤ 15 ∧ (15 : Int) ≤ 31 ∧
      ((10 : Int) < 15 →
        getCurrentPeriod 15 ⟨2024, 2, 10, 0⟩ =
          { periodStart := specInstant 2024 (2 - 1) 15 0 0 0 0
            periodEnd := specInstant 2024 2 (15 - 1) 23 59 59 999 }) :=
  ⟨by decide, by norm_num, by norm_num,
    (getCurrentPeriod_matches_spec 15 ⟨2024, 2, 10, 0⟩ (by decide)
      (by norm_num) (by norm_num)).1.2⟩

/-- C5: for every `anchorDay` in 1..28 and every reference instant, the
period returned by `getCurrentPeriod` contains the reference instant:
`start ≤ referenceInstant ≤ end`. -/
theorem getCurrentPeriod_contains_ref (a : Int) (t : RefTime) (hv : t.Valid)
    (ha1 : 1 ≤ a) (ha2 : a ≤ 28) :
    (getCurrentPeriod a t).periodStart ≤ t.instant ∧
      t.instant ≤ (getCurrentPeriod a t).periodEnd := by
  obtain ⟨hm0, hm1, hd1, hd2, hs0, hs1⟩ := hv
  have hlen : monthLen t.year t.month = daysInMonth t.year (t.month + 1) := by
    unfold monthLen
    have e1 : (t.year * 12 + t.month) / 12 = t.year := by omega
    have e2 : (t.year * 12 + t.month) % 12 = t.month := by omega
    rw [e1, e2]
  have hcur := makeDay_succ t.year t.month
  have hprev := makeDay_succ t.year (t.month - 1)
  have hpb := monthLen_bounds t.year (t.month - 1)
  rw [sub_add_cancel] at hprev
  rw [hlen] at hcur
  unfold getCurrentPeriod RefTime.instant mkDate
  rw [makeDay_day t.year t.month t.day]
  by_cases h : t.day ≥ a
  · rw [if_pos h]
    simp only
    rw [makeDay_day t.year t.month a, makeDay_day t.year (t.month + 1) (a - 1), hcur]
    constructor <;> nlinarith [hd2, hs0, hs1, h, ha1]
  · rw [if_neg h]
    simp only
    rw [makeDay_day t.year (t.month - 1) a, makeDay_day t.year t.month (a - 1), hprev]
    constructor <;> nlinarith [hd1, hs0, hs1, ha2, hpb.1, hpb.2]

theorem getCurrentPeriod_contains_ref_witness :
    (⟨2024, 2, 10, 0⟩ : RefTime).Valid ∧
      (getCurrentPeriod 15 ⟨2024, 2, 10, 0⟩).periodStart ≤
          (⟨2024, 2, 10, 0⟩ : RefTime).instant ∧
        (⟨2024, 2, 10, 0⟩ : RefTime).instant ≤
          (getCurrentPeriod 15 ⟨2024, 2, 10, 0⟩).periodEnd :=
  ⟨by decide,
    getCurrentPeriod_contains_ref 15 ⟨2024, 2, 10, 0⟩ (by decide) (by norm_num) (by norm_num)⟩

/-! ## Aggregation claims -/

/-- C6: aggregating the empty record sequence yields totalAmount 0,
count 0, min 0, max 0, average 0 and an empty per-category mapping; no
division by zero is performed (the zero fallback object is returned
before any division) and, amounts being exact rationals, no NaN can
appear in any output field. -/
theorem aggregate_empty :
    getStatistics [] = ⟨0, 0, 0, 0, 0⟩ ∧ spentByCategory [] = [] ∧ totalSpent [] = 0 :=
  ⟨rfl, rfl, rfl⟩

/-- Evaluation helper: `round2 q = r` once the floor is pinned down. -/
theorem round2_eq (q r : ℚ) (n : Int) (hr : (n : ℚ) / 100 = r)
    (h1 : (n : ℚ) ≤ q * 100 + 1 / 2) (h2 : q * 100 + 1 / 2 < n + 1) :
    round2 q = r := by
  unfold round2 jsRound
  rw [Int.floor_eq_iff.mpr ⟨h1, h2⟩, hr]

/-- Evaluation helper: `toFixed1 q = r` once the floor is pinned down. -/
theorem toFixed1_eq (q r : ℚ) (n : Int) (hr : (n : ℚ) / 10 = r)
    (h1 : (n : ℚ) ≤ q * 10 + 1 / 2) (h2 : q * 10 + 1 / 2 < n + 1) :
    toFixed1 q = r := by
  unfold toFixed1 jsRound
  rw [Int.floor_eq_iff.mpr ⟨h1, h2⟩, hr]

/-- C8: with monthlyBudget = 0 and a non-empty record sequence, the
summary reports percentUsed 0 (the guard avoids the division) and
shouldNotify is notificationEnabled AND (0 ≥ threshold). -/
theorem summary_zero_budget (s : BudgetSettings) (now : RefTime) (es : List Expense)
    (hb : s.monthlyBudget = 0) (hne : es ≠ []) :
    (getBudgetSummary s now es).percentUsed = 0 ∧
      (getBudgetSummary s now es).shouldNotify =
        (s.notificationsEnabled && decide ((0 : ℚ) ≥ s.thresholdPercent)) := by
  constructor
  · show round2 (if s.monthlyBudget > 0
        then totalSpent (List.filter
            (fun e => inPeriod (getCurrentPeriod s.anchorDay now) e) es) /
          s.monthlyBudget * 100
        else 0) = 0
    rw [hb, if_neg (by norm_num : ¬ ((0 : ℚ) > 0))]
    exact round2_eq 0 0 0 (by norm_num) (by norm_num) (by norm_num)
  · show (s.notificationsEnabled &&
        decide ((if s.monthlyBudget > 0
            then totalSpent (List.filter
                (fun e => inPeriod (getCurrentPeriod s.anchorDay now) e) es) /
              s.monthlyBudget * 100
            else 0) ≥ s.thresholdPercent)) =
      (s.notificationsEnabled && decide ((0 : ℚ) ≥ s.thresholdPercent))
    rw [hb, if_neg (by norm_num : ¬ ((0 : ℚ) > 0))]

theorem summary_zero_budget_witness :
    (({ sampleSettings with monthlyBudget := 0 } : BudgetSettings).monthlyBudget = (0 : ℚ)) ∧
    ([expense850] : List Expense) ≠ [] ∧
    ((getBudgetSummary { sampleSettings with monthlyBudget := 0 } refMar20
        [expense850]).percentUsed = 0 ∧
      (getBudgetSummary { sampleSettings with monthlyBudget := 0 } refMar20
          [expense850]).shouldNotify =
        (({ sampleSettings with monthlyBudget := 0 } : BudgetSettings).notificationsEnabled &&
          decide ((0 : ℚ) ≥
            ({ sampleSettings with monthlyBudget := 0 } : BudgetSettings).thresholdPercent))) :=
  ⟨rfl, List.cons_ne_nil _ _,
    summary_zero_budget { sampleSettings with monthlyBudget := 0 } refMar20 [expense850]
      rfl (List.cons_ne_nil _ _)⟩

/-- C2: for every settings record and expense collection, the summary
satisfies remaining = monthlyBudget - totalSpent (negative remaining
included), the reported percentUsed is the exact ratio rounded to two
decimals when monthlyBudget > 0, shouldNotify is notificationEnabled AND
(exact percentUsed ≥ threshold), and the notification message (carrying
the percentage rounded to one decimal) is present exactly when
shouldNotify holds and is null otherwise. -/
theorem summary_fields_spec (s : BudgetSettings) (now : RefTime) (es : List Expense) :
    (getBudgetSummary s now es).remaining =
        s.monthlyBudget - (getBudgetSummary s now es).totalSpent ∧
    (0 < s.monthlyBudget →
      (getBudgetSummary s now es).percentUsed =
        round2 ((getBudgetSummary s now es).totalSpent / s.monthlyBudget * 100)) ∧
    (getBudgetSummary s now es).shouldNotify =
      (s.notificationsEnabled &&
        decide ((if s.monthlyBudget > 0
            then (getBudgetSummary s now es).totalSpent / s.monthlyBudget * 100
            else 0) ≥ s.thresholdPercent)) ∧
    (getBudgetSummary s now es).notificationMessage =
      (if (getBudgetSummary s now es).shouldNotify
        then some (toFixed1 (if s.monthlyBudget > 0
            then (getBudgetSummary s now es).totalSpent / s.monthlyBudget * 100
            else 0))
        else none) ∧
    ((getBudgetSummary s now es).notificationMessage.isSome ↔
      (getBudgetSummary s now es).shouldNotify = true) := by
  refine ⟨rfl, fun h => ?_, rfl, rfl, ?_⟩
  · rw [show (getBudgetSummary s now es).percentUsed =
        round2 (if s.monthlyBudget > 0
          then (getBudgetSummary s now es).totalSpent / s.monthlyBudget * 100
          else 0) from rfl, if_pos h]
  · rw [show (getBudgetSummary s now es).notificationMessage =
        (if (getBudgetSummary s now es).shouldNotify
          then some (toFixed1 (if s.monthlyBudget > 0
              then (getBudgetSummary s now es).totalSpent / s.monthlyBudget * 100
              else 0))
          else none) from rfl]
    split <;> simp_all

theorem summary850_inPeriod :
    inPeriod (getCurrentPeriod sampleSettings.anchorDay refMar20) expense850 = true := by
  decide

theorem summary850_filter :
    List.filter (fun e => inPeriod (getCurrentPeriod sampleSettings.anchorDay refMar20) e)
      [expense850] = [expense850] := by
  simp [List.filter_cons, summary850_inPeriod]

theorem summary850_totalSpent :
    (getBudgetSummary sampleSettings refMar20 [expense850]).totalSpent = 850 := by
  show totalSpent (List.filter
      (fun e => inPeriod (getCurrentPeriod sampleSettings.anchorDay refMar20) e)
      [expense850]) = 850
  rw [summary850_filter]
  simp [totalSpent, expense850]

theorem summary850_percentUsed :
    (getBudgetSummary sampleSettings refMar20 [expense850]).percentUsed = 85 := by
  show round2 (if sampleSettings.monthlyBudget > 0
      then totalSpent (List.filter
          (fun e => inPeriod (getCurrentPeriod sampleSettings.anchorDay refMar20) e)
          [expense850]) / sampleSettings.monthlyBudget * 100
      else 0) = 85
  rw [summary850_filter, if_pos (by norm_num [sampleSettings] :
    sampleSettings.monthlyBudget > 0)]
  have ht : totalSpent [expense850] = 850 := by simp [totalSpent, expense850]
  rw [ht]
  exact round2_eq _ 85 8500 (by norm_num) (by norm_num [sampleSettings])
    (by norm_num [sampleSettings])

theorem summary850_shouldNotify :
    (getBudgetSummary sampleSettings refMar20 [expense850]).shouldNotify = true := by
  show (sampleSettings.notificationsEnabled &&
      decide ((if sampleSettings.monthlyBudget > 0
          then totalSpent (List.filter
              (fun e => inPeriod (getCurrentPeriod sampleSettings.anchorDay refMar20) e)
              [expense850]) / sampleSettings.monthlyBudget * 100
          else 0) ≥ sampleSettings.thresholdPercent)) = true
  rw [summary850_filter, if_pos (by norm_num [sampleSettings] :
    sampleSettings.monthlyBudget > 0)]
  have ht : totalSpent [expense850] = 850 := by simp [totalSpent, expense850]
  rw [ht]
  simp only [sampleSettings, Bool.true_and, decide_eq_true_eq]
  norm_num

theorem summary850_remaining :
    (getBudgetSummary sampleSettings refMar20 [expense850]).remaining = 150 := by
  show sampleSettings.monthlyBudget - totalSpent (List.filter
      (fun e => inPeriod (getCurrentPeriod sampleSettings.anchorDay refMar20) e)
      [expense850]) = 150
  rw [summary850_filter]
  have ht : totalSpent [expense850] = 850 := by simp [totalSpent, expense850]
  rw [ht]
  norm_num [sampleSettings]

theorem summary_fields_spec_witness :
    (0 : ℚ) < sampleSettings.monthlyBudget ∧
    (getBudgetSummary sampleSettings refMar20 [expense850]).percentUsed =
      round2 ((getBudgetSummary sampleSettings refMar20 [expense850]).totalSpent /
        sampleSettings.monthlyBudget * 100) ∧
    (getBudgetSummary sampleSettings refMar20 [expense850]).totalSpent = 850 ∧
    (getBudgetSummary sampleSettings refMar20 [expense850]).percentUsed = 85 ∧
    (getBudgetSummary sampleSettings refMar20 [expense850]).shouldNotify = true ∧
    (getBudgetSummary sampleSettings refMar20 [expense850]).remaining = 150 :=
  ⟨by norm_num [sampleSettings],
    (summary_fields_spec sampleSettings refMar20 [expense850]).2.1
      (by norm_num [sampleSettings]),
    summary850_totalSpent, summary850_percentUsed, summary850_shouldNotify,
    summary850_remaining⟩

/-- C10: the notification decision is computed from the exact (unrounded)
spend ratio, not from the 2-decimal-rounded percentUsed in the response:
in general shouldNotify compares the unrounded percentage against the
threshold, and concretely with budget 1000, spend 799.96 and threshold 80
the response reports percentUsed = 80 (equal to the threshold) while
shouldNotify is false. -/
theorem shouldNotify_unrounded (s : BudgetSettings) (now : RefTime) (es : List Expense) :
    ((getBudgetSummary s now es).shouldNotify =
      (s.notificationsEnabled &&
        decide ((if s.monthlyBudget > 0
            then (getBudgetSummary s now es).totalSpent / s.monthlyBudget * 100
            else 0) ≥ s.thresholdPercent))) ∧
    (getBudgetSummary sampleSettings refMar20 [expense79996]).percentUsed = 80 ∧
    sampleSettings.thresholdPercent = 80 ∧
    sampleSettings.notificationsEnabled = true ∧
    (getBudgetSummary sampleSettings refMar20 [expense79996]).shouldNotify = false := by
  have hin : inPeriod (getCurrentPeriod sampleSettings.anchorDay refMar20) expense79996 =
      true := by decide
  have hfil : List.filter
      (fun e => inPeriod (getCurrentPeriod sampleSettings.anchorDay refMar20) e)
      [expense79996] = [expense79996] := by
    simp [List.filter_cons, hin]
  have ht : totalSpent [expense79996] = 19999 / 25 := by
    simp [totalSpent, expense79996]
    norm_num
  refine ⟨rfl, ?_, rfl, rfl, ?_⟩
  · show round2 (if sampleSettings.monthlyBudget > 0
        then totalSpent (List.filter
            (fun e => inPeriod (getCurrentPeriod sampleSettings.anchorDay refMar20) e)
            [expense79996]) / sampleSettings.monthlyBudget * 100
        else 0) = 80
    rw [hfil, if_pos (by norm_num [sampleSettings] : sampleSettings.monthlyBudget > 0), ht]
    exact round2_eq _ 80 8000 (by norm_num) (by norm_num [sampleSettings])
      (by norm_num [sampleSettings])
  · show (sampleSettings.notificationsEnabled &&
        decide ((if sampleSettings.monthlyBudget > 0
            then totalSpent (List.filter
                (fun e => inPeriod (getCurrentPeriod sampleSettings.anchorDay refMar20) e)
                [expense79996]) / sampleSettings.monthlyBudget * 100
            else 0) ≥ sampleSettings.thresholdPercent)) = false
    rw [hfil, if_pos (by norm_num [sampleSettings] : sampleSettings.monthlyBudget > 0), ht]
    simp only [sampleSettings, Bool.true_and, decide_eq_false_iff_not]
    norm_num

/-! ## History claims -/

/-- C9 counterexample: a history request with months = 0 is not rejected;
it returns a normal, successful, empty result. -/
theorem history_months_zero_not_rejected :
    getBudgetHistory (some sampleSettings) 0 refMar10 [] = Except.ok [] := rfl

/-- C9 amended: `getBudgetHistory` performs no InvalidInput validation of
`months`: with settings present, a non-positive months value produces a
normal successful response whose history list is empty (the loop body
never runs), rather than a rejection. -/
theorem history_nonpositive_months_ok (s : BudgetSettings) (months : Int) (now : RefTime)
    (es : List Expense) (hm : months ≤ 0) :
    getBudgetHistory (some s) months now es = Except.ok [] := by
  unfold getBudgetHistory
  rw [Int.toNat_of_nonpos hm]
  rfl

theorem history_nonpositive_months_ok_witness :
    (-3 : Int) ≤ 0 ∧
      getBudgetHistory (some sampleSettings) (-3) refMar10 [] = Except.ok [] :=
  ⟨by norm_num, history_nonpositive_months_ok sampleSettings (-3) refMar10 [] (by norm_num)⟩

/-- C3: for anchorDay in 1..31 and positive months count, the history
computation returns exactly that many entries, index 0 the most recent;
walking backward, each older period ends exactly 1 millisecond before the
next more recent period's start, period starts are strictly descending,
and each entry carries the current monthlyBudget, its own period's
expense count, and remaining = monthlyBudget - totalSpent. -/
theorem getBudgetHistory_spec (s : BudgetSettings) (months : Int) (now : RefTime)
    (es : List Expense) (hm : 0 < months) (ha1 : 1 ≤ s.anchorDay)
    (ha2 : s.anchorDay ≤ 31) :
    getBudgetHistory (some s) months now es =
      Except.ok ((List.range months.toNat).map fun i : Nat =>
        historyEntry s now es (i : Int)) ∧
    ((List.range months.toNat).map fun i : Nat => historyEntry s now es (i : Int)).length =
      months.toNat ∧
    (∀ i : Int,
      (historyEntry s now es (i + 1)).period.periodEnd =
          (historyEntry s now es i).period.periodStart - 1 ∧
        (historyEntry s now es (i + 1)).period.periodStart <
          (historyEntry s now es i).period.periodStart) ∧
    (∀ i : Int,
      (historyEntry s now es i).monthlyBudget = s.monthlyBudget ∧
        (historyEntry s now es i).remaining =
          s.monthlyBudget - (historyEntry s now es i).totalSpent ∧
        (historyEntry s now es i).expensesCount =
          (es.filter fun e => inPeriod (historyPeriod s.anchorDay now i) e).length) := by
  refine ⟨rfl, by rw [List.length_map, List.length_range], fun i => ⟨?_, ?_⟩,
    fun i => ⟨rfl, rfl, rfl⟩⟩
  · show mkDate now.year (now.month - (i + 1) + 1) (s.anchorDay - 1) 23 59 59 999 =
      mkDate now.year (now.month - i) s.anchorDay 0 0 0 0 - 1
    have he : now.month - (i + 1) + 1 = now.month - i := by ring
    rw [he]
    unfold mkDate
    rw [makeDay_day now.year (now.month - i) (s.anchorDay - 1),
      makeDay_day now.year (now.month - i) s.anchorDay]
    ring
  · show mkDate now.year (now.month - (i + 1)) s.anchorDay 0 0 0 0 <
      mkDate now.year (now.month - i) s.anchorDay 0 0 0 0
    unfold mkDate
    rw [makeDay_day now.year (now.month - (i + 1)) s.anchorDay,
      makeDay_day now.year (now.month - i) s.anchorDay]
    have hs := makeDay_succ now.year (now.month - (i + 1))
    have he : now.month - (i + 1) + 1 = now.month - i := by ring
    rw [he] at hs
    have hb := (monthLen_bounds now.year (now.month - (i + 1))).1
    linarith

theorem getBudgetHistory_spec_witness :
    (0 : Int) < 3 ∧ 1 ≤ sampleSettings.anchorDay ∧ sampleSettings.anchorDay ≤ 31 ∧
      getBudgetHistory (some sampleSettings) 3 refMar10 [] =
        Except.ok ((List.range (3 : Int).toNat).map fun i : Nat =>
          historyEntry sampleSettings refMar10 [] (i : Int)) :=
  ⟨by norm_num, by decide, by decide,
    (getBudgetHistory_spec sampleSettings 3 refMar10 [] (by norm_num) (by decide)
      (by decide)).1⟩

/-- C4 counterexample: with anchorDay 15 and reference 2024-03-10
(reference day 10 < anchor 15), the i = 0 period of the history walk is
[2024-03-15, 2024-04-14T23:59:59.999] while `getCurrentPeriod` returns
[2024-02-15, 2024-03-14T23:59:59.999]; the two are not equal. -/
theorem history_first_ne_currentPeriod :
    historyPeriod sampleSettings.anchorDay refMar10 0 ≠
      getCurrentPeriod sampleSettings.anchorDay refMar10 := by
  decide

/-- C4 amended: the i = 0 period of the history walk equals the period
returned by `getCurrentPeriod` if and only if the reference day-of-month
is at least anchorDay — the history loop never compares the reference day
against the anchor, while `getCurrentPeriod` does. -/
theorem history_first_eq_currentPeriod_iff (a : Int) (t : RefTime) :
    historyPeriod a t 0 = getCurrentPeriod a t ↔ t.day ≥ a := by
  unfold historyPeriod getCurrentPeriod
  by_cases h : t.day ≥ a
  · rw [if_pos h]
    simp only [sub_zero]
    exact iff_of_true trivial h
  · rw [if_neg h]
    refine iff_of_false (fun hEq => ?_) h
    rw [Period.mk.injEq] at hEq
    have h1 := hEq.1
    rw [sub_zero] at h1
    unfold mkDate at h1
    rw [makeDay_day t.year t.month a, makeDay_day t.year (t.month - 1) a] at h1
    have hs := makeDay_succ t.year (t.month - 1)
    rw [sub_add_cancel] at hs
    have hb := (monthLen_bounds t.year (t.month - 1)).1
    linarith

theorem lookup_upsert (acc : List (String × ℚ)) (c c' : String) (a : ℚ) :
    List.lookup c' (upsert acc c a) =
      if c' = c then some ((List.lookup c' acc).getD 0 + a)
      else List.lookup c' acc := by
  induction acc with
  | nil =>
    by_cases h : c' = c
    · have hb : (c' == c) = true := beq_iff_eq.mpr h
      simp [upsert, List.lookup, hb, h]
    · have hb : (c' == c) = false := beq_eq_false_iff_ne.mpr h
      simp [upsert, List.lookup, hb, h]
  | cons kv t ih =>
    obtain ⟨k, v⟩ := kv
    by_cases hk : k = c
    · subst hk
      by_cases h : c' = k
      · have hb : (c' == k) = true := beq_iff_eq.mpr h
        simp [upsert, List.lookup, hb, h]
      · have hb : (c' == k) = false := beq_eq_false_iff_ne.mpr h
        simp [upsert, List.lookup, hb, h]
    · by_cases h : c' = k
      · have hb : (c' == k) = true := beq_iff_eq.mpr h
        have hck : ¬ c' = c := fun hcc => hk (h.symm.trans hcc)
        simp [upsert, List.lookup, hk, hb, hck]
      · have hb : (c' == k) = false := beq_eq_false_iff_ne.mpr h
        simp [upsert, List.lookup, hk, hb, ih]

theorem lookup_spentByCategory_aux (es : List Expense) :
    ∀ (acc : List (String × ℚ)) (c : String),
      List.lookup c (es.foldl (fun acc e => upsert acc (catOf e) e.amount) acc) =
        if (es.countP fun e => catOf e == c) = 0 then List.lookup c acc
        else some ((List.lookup c acc).getD 0 + catSum es c) := by
  induction es with
  | nil => intro acc c; simp [catSum]
  | cons e t ih =>
    intro acc c
    rw [List.foldl_cons, ih]
    by_cases hc : catOf e = c
    · have hcP : (catOf e == c) = true := by simp [hc]
      have hcount : (List.countP (fun e => catOf e == c) (e :: t)) =
          (List.countP (fun e => catOf e == c) t) + 1 := by
        rw [List.countP_cons, hcP]
        simp
      have hsum : catSum (e :: t) c = e.amount + catSum t c := by
        simp [catSum, List.filter_cons, hcP]
      have hacc : List.lookup c (upsert acc (catOf e) e.amount) =
          some ((List.lookup c acc).getD 0 + e.amount) := by
        rw [lookup_upsert, if_pos hc.symm]
      have hne : ¬ (List.countP (fun e => catOf e == c) (e :: t)) = 0 := by
        rw [hcount]
        omega
      by_cases h0 : (List.countP (fun e => catOf e == c) t) = 0
      · have hfil : (t.filter fun e => catOf e == c) = [] := by
          rw [List.filter_eq_nil_iff]
          intro a ha
          by_contra hmem
          have := List.countP_eq_zero.mp h0 a ha
          exact this hmem
        have hz : catSum t c = 0 := by simp [catSum, hfil]
        rw [if_pos h0, if_neg hne, hacc, hsum, hz]
        norm_num
      · rw [if_neg h0, if_neg hne, hacc, hsum]
        simp only [Option.getD_some]
        refine congrArg some ?_
        ring
    · have hcP : (catOf e == c) = false := by simp [hc]
      have hcount : (List.countP (fun e => catOf e == c) (e :: t)) =
          (List.countP (fun e => catOf e == c) t) := by
        rw [List.countP_cons, hcP]
        simp
      have hsum : catSum (e :: t) c = catSum t c := by
        simp [catSum, List.filter_cons, hcP]
      have hacc : List.lookup c (upsert acc (catOf e) e.amount) = List.lookup c acc := by
        rw [lookup_upsert, if_neg (fun h => hc h.symm)]
      rw [hcount, hsum, hacc]

theorem lookup_spentByCategory (es : List Expense) (c : String) :
    List.lookup c (spentByCategory es) =
      if (es.countP fun e => catOf e == c) = 0 then none else some (catSum es c) := by
  rw [spentByCategory, lookup_spentByCategory_aux]
  simp [List.lookup]

/-- C7: aggregation is order-independent — permuting the input record
sequence leaves every component of the aggregation result unchanged: the
statistics record (total, count, min, max, average), the running total,
the record count, and every per-category bucket (the per-category mapping
is compared by lookup, since only the JS object key insertion order can
differ). -/
theorem aggregate_perm_invariant (l1 l2 : List Expense) (hp : l1.Perm l2) :
    getStatistics (l1.map (·.amount)) = getStatistics (l2.map (·.amount)) ∧
    totalSpent l1 = totalSpent l2 ∧
    l1.length = l2.length ∧
    ∀ c, List.lookup c (spentByCategory l1) = List.lookup c (spentByCategory l2) := by
  have hm : (l1.map (·.amount)).Perm (l2.map (·.amount)) := hp.map _
  refine ⟨?_, ?_, hp.length_eq, fun c => ?_⟩
  · have hlen := hm.length_eq
    have hsum := hm.sum_eq
    have hmin : foldMin (l1.map (·.amount)) = foldMin (l2.map (·.amount)) := by
      haveI : LeftCommutative (fun (x : ℚ) (o : Option ℚ) => some (min (o.getD x) x)) :=
        ⟨fun a b o => by
          cases o <;> simp [min_self, min_assoc, min_comm, min_left_comm]⟩
      exact hm.foldr_eq none
    have hmax : foldMax (l1.map (·.amount)) = foldMax (l2.map (·.amount)) := by
      haveI : LeftCommutative (fun (x : ℚ) (o : Option ℚ) => some (max (o.getD x) x)) :=
        ⟨fun a b o => by
          cases o <;> simp [max_self, max_assoc, max_comm, max_left_comm]⟩
      exact hm.foldr_eq none
    unfold getStatistics
    rw [hlen, hsum, foldMin, foldMax] at *
    rw [hmin, hmax]
  · haveI : RightCommutative (fun (sum : ℚ) (e : Expense) => sum + e.amount) :=
      ⟨fun b a1 a2 => by ring⟩
    exact hp.foldl_eq 0
  · rw [lookup_spentByCategory, lookup_spentByCategory, hp.countP_eq]
    have hcs : catSum l1 c = catSum l2 c := ((hp.filter _).map _).sum_eq
    rw [hcs]

theorem aggregate_perm_invariant_witness :
    ([expense850, expense79996] : List Expense).Perm [expense79996, expense850] ∧
    totalSpent [expense850, expense79996] = totalSpent [expense79996, expense850] ∧
    List.lookup "Food" (spentByCategory [expense850, expense79996]) =
      List.lookup "Food" (spentByCategory [expense79996, expense850]) :=
  ⟨List.Perm.swap _ _ _,
    (aggregate_perm_invariant _ _ (List.Perm.swap _ _ _)).2.1,
    (aggregate_perm_invariant _ _ (List.Perm.swap _ _ _)).2.2.2 "Food"⟩

end AiBudget

